import Mathlib

/-!
Shallow embedding of the Express/PostgreSQL demo server in server.js:
the pool construction (lines 12-60), the bootstrap initializer
initializeDatabase (lines 68-164), the request handlers (lines 167-268)
and startServer (lines 271-298).  External effects (the relational store
and the wall clock) are modelled by explicit oracle parameters: each
query of an attempt is described by whether the store reports an error
and how many milliseconds the query takes to settle.
-/

namespace ServerJs

/-- SSL option object added to the pool configuration for non-local
databases (server.js lines 37-41). -/
structure SSLConfig where
  rejectUnauthorized : Bool
  deriving DecidableEq, Repr

/-- The configuration object handed to the pg Pool constructor
(server.js lines 29-41). -/
structure PoolConfig where
  connectionString : Option String
  max : Nat
  idleTimeoutMillis : Nat
  connectionTimeoutMillis : Nat
  ssl : Option SSLConfig
  deriving DecidableEq, Repr

/-- JavaScript truthiness of an optional string: undefined and the empty
string are falsy, every other string is truthy. -/
def truthy : Option String → Bool
  | none => false
  | some s => s ≠ ""

/-- JavaScript logical-or specialised to optional strings, as used on
line 12: the left operand is returned when truthy, otherwise the right. -/
def jsOr (a b : Option String) : Option String :=
  if truthy a then a else b

/-- Line 12: the connection string is the first truthy value among
DATABASE_URL, POSTGRES_URL and POSTGRES_PRISMA_URL. -/
def dbUrl (databaseUrl postgresUrl postgresPrismaUrl : Option String) : Option String :=
  jsOr databaseUrl (jsOr postgresUrl postgresPrismaUrl)

/-- Line 18: optional chaining over the url; undefined when the url is
undefined, otherwise whether the url mentions localhost or 127.0.0.1. -/
def isLocalDatabase (url : Option String) : Option Bool :=
  url.map fun s => s.containsSubstr "localhost" || s.containsSubstr "127.0.0.1"

/-- Line 19: useSSL is the JavaScript value of (not isLocalDatabase and
double-negated url); negating the undefined produced by an absent url
yields true, and double negation of an absent url yields false. -/
def useSSL (url : Option String) : Bool :=
  (match isLocalDatabase url with
    | none => true
    | some b => !b) && truthy url

/-- Lines 29-41: the pool configuration object built from the url. -/
def poolConfig (url : Option String) : PoolConfig :=
  { connectionString := url
    max := 20
    idleTimeoutMillis := 30000
    connectionTimeoutMillis := 10000
    ssl := if useSSL url then some { rejectUnauthorized := false } else none }

/-- Lines 14-60: the global pool variable.  It is undefined exactly when
the Pool constructor threw inside the try block; ctorThrows is that
oracle.  The pg Pool constructor merely records its options object and
performs no validation or connection, so on every configuration object,
including one whose connectionString is undefined, it returns normally:
in the running program ctorThrows is false. -/
def mkPool (url : Option String) (ctorThrows : Bool) : Option PoolConfig :=
  if ctorThrows then none else some (poolConfig url)

/-- The readiness flag consulted by every data-access route (lines 183,
215, 236) and reported by the health endpoint (line 255): the pool
variable being set. -/
def readinessFlag (pool : Option PoolConfig) : Bool :=
  pool.isSome

/-- One row of the products catalog as inserted by the seed step
(server.js lines 98-139).  The DECIMAL(10,2) price is represented in
hundredths to stay in integer arithmetic. -/
structure Product where
  name : String
  description : String
  priceCents : Nat
  image_url : String
  category : String
  stock_quantity : Nat
  deriving DecidableEq, Repr

/-- The fixed sample catalog seeded into an empty table, in source order
(lines 98-139). -/
def sampleProducts : List Product :=
  [ { name := "Wireless Bluetooth Headphones"
      description := "High-quality wireless headphones with noise cancellation"
      priceCents := 19999
      image_url := "https://images.unsplash.com/photo-1505740420928-5e560c06d30e?w=300"
      category := "Electronics"
      stock_quantity := 50 },
    { name := "Smart Fitness Watch"
      description := "Track your fitness goals with this advanced smartwatch"
      priceCents := 29999
      image_url := "https://images.unsplash.com/photo-1523275335684-37898b6baf30?w=300"
      category := "Electronics"
      stock_quantity := 30 },
    { name := "Organic Coffee Beans"
      description := "Premium organic coffee beans from Colombia"
      priceCents := 2499
      image_url := "https://images.unsplash.com/photo-1559056199-641a0ac8b55e?w=300"
      category := "Food & Beverage"
      stock_quantity := 100 },
    { name := "Yoga Mat Premium"
      description := "Non-slip yoga mat perfect for all types of yoga practice"
      priceCents := 7999
      image_url := "https://images.unsplash.com/photo-1544367567-0f2fcb009e0b?w=300"
      category := "Sports"
      stock_quantity := 75 },
    { name := "Minimalist Backpack"
      description := "Sleek and functional backpack for everyday use"
      priceCents := 8999
      image_url := "https://images.unsplash.com/photo-1553062407-98eeb64c6a62?w=300"
      category := "Accessories"
      stock_quantity := 40 } ]

/-- The state of the external products table: whether it exists and its
rows in insertion order. -/
structure DBState where
  tableExists : Bool
  rows : List Product
  deriving DecidableEq, Repr

/-- Observable actions of the server against the store and the timer. -/
inductive Event where
  | attemptStart (n : Nat)
  | createTableQuery
  | countQuery
  | insertQuery (p : Product)
  | backoff (ms : Nat)
  | selectProducts (category : Option String) (limit offset : Nat)
  | selectProductById (id : String)
  | selectCategories
  deriving DecidableEq, Repr

/-- An error value rejected inside the initializer: a store error, or
the Error created by the 15000 ms timeout promise on line 92. -/
inductive DBErr where
  | storeError
  | queryTimeout
  deriving DecidableEq, Repr

/-- Oracle for one external query: whether the store reports an error,
and how many milliseconds pass before the query settles. -/
structure QueryBehavior where
  fails : Bool
  duration : Nat
  deriving DecidableEq, Repr

/-- A query that succeeds immediately. -/
def fastOk : QueryBehavior := { fails := false, duration := 0 }

/-- Oracle for one attempt of the initializer: the behaviors of the
CREATE TABLE statement, of the COUNT query, and of each seed insert
(indexed from 0 in catalog order). -/
structure AttemptEnv where
  create : QueryBehavior
  count : QueryBehavior
  insertFails : Nat → Bool

/-- The seeding loop of lines 141-146: one INSERT per product, in list
order, stopping at the first insert the store rejects.  The index i
numbers the inserts for the oracle. -/
def insertLoop (failsAt : Nat → Bool) (db : DBState) (evs : List Event) :
    List Product → Nat → DBState × List Event × Option DBErr
  | [], _ => (db, evs, none)
  | p :: rest, i =>
    if failsAt i then (db, evs ++ [Event.insertQuery p], some DBErr.storeError)
    else
      insertLoop failsAt { db with rows := db.rows ++ [p] }
        (evs ++ [Event.insertQuery p]) rest (i + 1)

/-- The body of one attempt of the initializer, lines 75-150.  The
CREATE TABLE IF NOT EXISTS statement is raced against the 15000 ms
timeout promise (lines 79-93): when the statement takes at least
15000 ms the timeout rejection wins the race.  The COUNT query on line
96 is awaited with no race, so its duration never produces an error by
itself.  Seeding runs only when the parsed count is zero.  The returned
error is the rejection the enclosing try block catches, if any; store
effects performed before a rejection persist. -/
def attemptBody (e : AttemptEnv) (db : DBState) : DBState × List Event × Option DBErr :=
  if 15000 ≤ e.create.duration then
    (db, [Event.createTableQuery], some DBErr.queryTimeout)
  else if e.create.fails then
    (db, [Event.createTableQuery], some DBErr.storeError)
  else
    let db1 : DBState := { db with tableExists := true }
    if e.count.fails then
      (db1, [Event.createTableQuery, Event.countQuery], some DBErr.storeError)
    else if db1.rows.length = 0 then
      insertLoop e.insertFails db1 [Event.createTableQuery, Event.countQuery] sampleProducts 0
    else
      (db1, [Event.createTableQuery, Event.countQuery], none)

/-- The outcome of initializeDatabase: the final table state, the trace
of observable actions, whether the success return on line 150 was
reached, and the error propagated out of the function, if any. -/
structure InitResult where
  db : DBState
  events : List Event
  completed : Bool
  uncaught : Option DBErr
  deriving DecidableEq, Repr

/-- The retry loop of lines 74-163.  The for counter attempt runs from 1
to retries; left is the number of attempts still allowed after the
current one, so the guard attempt < retries of line 154 is left being
positive.  On a caught error with attempts left the loop waits the fixed
2000 ms backoff (line 156) and retries; on a caught error in the last
attempt it returns in fallback mode (line 160); on success it returns
(line 150).  Every rejection of the body is caught, so no branch
produces an uncaught error. -/
def initLoop (env : Nat → AttemptEnv) : Nat → Nat → DBState → List Event → InitResult
  | attempt, left, db, acc =>
    match attemptBody (env attempt) db with
    | (db1, evs, none) =>
      { db := db1, events := acc ++ Event.attemptStart attempt :: evs
        completed := true, uncaught := none }
    | (db1, evs, some _) =>
      match left with
      | 0 =>
        { db := db1, events := acc ++ Event.attemptStart attempt :: evs
          completed := false, uncaught := none }
      | Nat.succ left1 =>
        initLoop env (attempt + 1) left1 db1
          (acc ++ Event.attemptStart attempt :: evs ++ [Event.backoff 2000])

/-- The default value 3 of the retries parameter (line 68). -/
def defaultRetries : Nat := 3

/-- initializeDatabase, lines 68-164.  When the pool variable is unset
the function returns at line 71 with no attempt and no query; otherwise
the retry loop runs attempts 1 to retries (none when retries is zero). -/
def initializeDatabase (pool : Option PoolConfig) (env : Nat → AttemptEnv)
    (retries : Nat) (db : DBState) : InitResult :=
  match pool with
  | none => { db := db, events := [], completed := false, uncaught := none }
  | some _ =>
    match retries with
    | 0 => { db := db, events := [], completed := false, uncaught := none }
    | Nat.succ r => initLoop env 1 r db []

/-- The body of a JSON response sent by a route handler. -/
inductive RespBody where
  | empty
  | errMsg (msg : String)
  | productBody (p : Product)
  | listBody (products : List Product) (total limit offset : Nat)
  | categoryList (cs : List String)
  | fallbackBody (message status : String)
  | healthBody (database : String)
  deriving DecidableEq, Repr

/-- An HTTP response: status code and JSON body. -/
structure HttpResponse where
  status : Nat
  body : RespBody
  deriving DecidableEq, Repr

/-- GET /api/products, lines 182-211.  The category filter and the
already-parsed limit and offset come from the query string; qres is the
outcome of the SELECT returned by the store.  Without a pool the handler
returns 503 before issuing any query; a store error yields the generic
500; on success the body carries the rows, their number, limit and
offset (lines 201-206). -/
def getProductsHandler (pool : Option PoolConfig) (category : Option String)
    (limit offset : Nat) (qres : Except DBErr (List Product)) :
    HttpResponse × List Event :=
  match pool with
  | none => ({ status := 503, body := RespBody.errMsg "Database not available" }, [])
  | some _ =>
    match qres with
    | Except.error _ =>
      ({ status := 500, body := RespBody.errMsg "Failed to fetch products" },
        [Event.selectProducts category limit offset])
    | Except.ok rows =>
      ({ status := 200, body := RespBody.listBody rows rows.length limit offset },
        [Event.selectProducts category limit offset])

/-- GET /api/products/:id, lines 214-232.  Without a pool: 503 with no
query.  A store error: the generic 500.  A successful lookup with no
matching row: 404 Product not found.  Otherwise the first row is
returned. -/
def getProductByIdHandler (pool : Option PoolConfig) (id : String)
    (qres : Except DBErr (List Product)) : HttpResponse × List Event :=
  match pool with
  | none => ({ status := 503, body := RespBody.errMsg "Database not available" }, [])
  | some _ =>
    match qres with
    | Except.error _ =>
      ({ status := 500, body := RespBody.errMsg "Failed to fetch product" },
        [Event.selectProductById id])
    | Except.ok [] =>
      ({ status := 404, body := RespBody.errMsg "Product not found" },
        [Event.selectProductById id])
    | Except.ok (r :: _) =>
      ({ status := 200, body := RespBody.productBody r }, [Event.selectProductById id])

/-- GET /api/categories, lines 235-247. -/
def getCategoriesHandler (pool : Option PoolConfig)
    (qres : Except DBErr (List String)) : HttpResponse × List Event :=
  match pool with
  | none => ({ status := 503, body := RespBody.errMsg "Database not available" }, [])
  | some _ =>
    match qres with
    | Except.error _ =>
      ({ status := 500, body := RespBody.errMsg "Failed to fetch categories" },
        [Event.selectCategories])
    | Except.ok cs =>
      ({ status := 200, body := RespBody.categoryList cs }, [Event.selectCategories])

/-- GET /api/health, lines 250-262: reports the pool presence. -/
def healthHandler (pool : Option PoolConfig) : HttpResponse × List Event :=
  ({ status := 200
     body := RespBody.healthBody (if pool.isSome then "connected" else "disconnected") },
    [])

/-- The in-memory state shared by all handlers: the global pool variable
and the external table state. -/
structure GlobalState where
  pool : Option PoolConfig
  db : DBState

/-- An operation performed after the process is up: one of the route
handlers (each carrying the oracle answer of its SELECT), the error
middleware of lines 265-268, or a run of the initializer. -/
inductive ServerOp where
  | productsReq (category : Option String) (limit offset : Nat)
      (qres : Except DBErr (List Product))
  | productByIdReq (id : String) (qres : Except DBErr (List Product))
  | categoriesReq (qres : Except DBErr (List String))
  | healthReq
  | fallbackReq
  | errorMiddlewareReq
  | initRun (env : Nat → AttemptEnv) (retries : Nat)

/-- Dispatch of one operation.  No handler assigns the pool variable and
the SELECT statements have no write effect, so every request leaves the
state unchanged; only the initializer changes the table state. -/
def runOp (st : GlobalState) : ServerOp → GlobalState × Option HttpResponse × List Event
  | ServerOp.productsReq c l o q =>
    let r := getProductsHandler st.pool c l o q
    (st, some r.1, r.2)
  | ServerOp.productByIdReq i q =>
    let r := getProductByIdHandler st.pool i q
    (st, some r.1, r.2)
  | ServerOp.categoriesReq q =>
    let r := getCategoriesHandler st.pool q
    (st, some r.1, r.2)
  | ServerOp.healthReq =>
    let r := healthHandler st.pool
    (st, some r.1, r.2)
  | ServerOp.fallbackReq =>
    (st, some { status := 200
                body := RespBody.fallbackBody
                  "Application is running but database is not available" "partial" }, [])
  | ServerOp.errorMiddlewareReq =>
    (st, some { status := 500, body := RespBody.errMsg "Internal server error" }, [])
  | ServerOp.initRun env retries =>
    let r := initializeDatabase st.pool env retries st.db
    ({ pool := st.pool, db := r.db }, none, r.events)

/-- A sequence of post-startup operations. -/
def runOps (st : GlobalState) : List ServerOp → GlobalState
  | [] => st
  | op :: rest => runOps (runOp st op).1 rest

/-- The observable outcome of startServer. -/
structure ServerStatus where
  state : GlobalState
  listening : Bool
  exitCode : Option Nat

/-- startServer, lines 271-298: builds the global state from the module
initialisation (lines 12-60), awaits the initializer inside a try block
whose catch merely logs (lines 279-285), then listens.  The outer catch
calling process.exit(1) is reached only by a throw before or at listen,
which no path produces. -/
def startServer (url : Option String) (ctorThrows : Bool) (env : Nat → AttemptEnv)
    (db : DBState) : ServerStatus :=
  let pool := mkPool url ctorThrows
  let r := initializeDatabase pool env defaultRetries db
  { state := { pool := pool, db := r.db }, listening := true, exitCode := none }

/-- The store answers every query of an attempt promptly and
successfully: the create statement succeeds under the 15000 ms timeout,
the count succeeds, and every seed insert succeeds. -/
def Reachable (e : AttemptEnv) : Prop :=
  e.create.fails = false ∧ e.create.duration < 15000 ∧ e.count.fails = false ∧
    ∀ i, i < sampleProducts.length → e.insertFails i = false

/-- The store is unreachable for the attempt: its create statement
errors or takes at least the 15000 ms timeout. -/
def AttemptFails (e : AttemptEnv) : Prop :=
  e.create.fails = true ∨ 15000 ≤ e.create.duration

/-- Oracle in which the store answers everything immediately. -/
def envOk : Nat → AttemptEnv :=
  fun _ => { create := fastOk, count := fastOk, insertFails := fun _ => false }

/-- Oracle in which every create statement errors at once. -/
def envDown : Nat → AttemptEnv :=
  fun _ => { create := { fails := true, duration := 0 }, count := fastOk
             insertFails := fun _ => false }

/-- Oracle in which the count query succeeds but takes 20000 ms, beyond
the 15000 ms per-attempt timeout. -/
def envSlowCount : Nat → AttemptEnv :=
  fun _ => { create := fastOk, count := { fails := false, duration := 20000 }
             insertFails := fun _ => false }

/-- An absent, empty products table. -/
def db0 : DBState := { tableExists := false, rows := [] }

/-- A concrete remote pool configuration. -/
def pool0 : PoolConfig := poolConfig (some "postgres://db.example.com/app")

/-- Recognisers for trace events. -/
def isAttemptStart : Event → Bool
  | Event.attemptStart _ => true
  | _ => false

def isBackoffEvent : Event → Bool
  | Event.backoff _ => true
  | _ => false

def isInsertEvent : Event → Bool
  | Event.insertQuery _ => true
  | _ => false

def isCreateEvent : Event → Bool
  | Event.createTableQuery => true
  | _ => false

/-- The trace the retry loop leaves when every attempt fails, started at
attempt number a with left further attempts allowed: each attempt logs
its start and issues one create statement, and consecutive attempts are
separated by one fixed 2000 ms backoff. -/
def failureTrace : Nat → Nat → List Event
  | a, 0 => [Event.attemptStart a, Event.createTableQuery]
  | a, Nat.succ l =>
    Event.attemptStart a :: Event.createTableQuery :: Event.backoff 2000 ::
      failureTrace (a + 1) l

/-- The assertion of claim C2, following the spec wording, that the
row-count query is raced against the per-attempt timeout: were that so,
an attempt whose count query takes at least 15000 ms could not end
without an error.  Stated for comparison against attemptBody, which is
translated from the source. -/
def countRacedProp : Prop :=
  ∀ (e : AttemptEnv) (db : DBState),
    15000 ≤ e.count.duration → (attemptBody e db).2.2 ≠ none

/-- When no insert in range is rejected, the seeding loop inserts every
product in list order and returns no error. -/
theorem insertLoop_ok (failsAt : Nat → Bool) :
    ∀ (l : List Product) (i : Nat) (db : DBState) (evs : List Event),
      (∀ j, j < l.length → failsAt (i + j) = false) →
      insertLoop failsAt db evs l i =
        ({ db with rows := db.rows ++ l }, evs ++ l.map Event.insertQuery, none)
  | [], i, db, evs, _ => by simp [insertLoop]
  | p :: rest, i, db, evs, h => by
    have h0 : failsAt i = false := by simpa using h 0 (by simp)
    have ih := insertLoop_ok failsAt rest (i + 1) { db with rows := db.rows ++ [p] }
      (evs ++ [Event.insertQuery p]) (fun j hj => by
        have hh := h (j + 1) (by simpa using Nat.succ_lt_succ hj)
        rwa [show i + (j + 1) = i + 1 + j by omega] at hh)
    simp [insertLoop, h0, ih]

/-- A fully successful attempt: the schema exists afterwards, the seed
catalog is inserted exactly when the table was empty, and no error is
thrown. -/
theorem attemptBody_reachable (e : AttemptEnv) (db : DBState) (h : Reachable e) :
    attemptBody e db =
      ({ tableExists := true, rows := if db.rows.length = 0 then sampleProducts else db.rows },
        [Event.createTableQuery, Event.countQuery] ++
          (if db.rows.length = 0 then sampleProducts.map Event.insertQuery else []),
        none) := by
  obtain ⟨h1, h2, h3, h4⟩ := h
  by_cases hlen : db.rows.length = 0
  · have hnil : db.rows = [] := List.length_eq_zero.mp hlen
    have hins := insertLoop_ok e.insertFails sampleProducts 0
      { db with tableExists := true } [Event.createTableQuery, Event.countQuery]
      (fun j hj => by simpa using h4 j hj)
    rw [hnil] at hins
    simp only [List.nil_append] at hins
    simp [attemptBody, h1, h3, Nat.not_le.mpr h2, hlen, hnil, hins]
  · simp [attemptBody, h1, h3, Nat.not_le.mpr h2, hlen]

/-- An attempt against an unreachable store issues only the create
statement, leaves the table state unchanged, and throws. -/
theorem attemptBody_fails (e : AttemptEnv) (db : DBState) (h : AttemptFails e) :
    ∃ err, attemptBody e db = (db, [Event.createTableQuery], some err) := by
  by_cases hd : 15000 ≤ e.create.duration
  · exact ⟨DBErr.queryTimeout, by simp [attemptBody, hd]⟩
  · rcases h with h | h
    · exact ⟨DBErr.storeError, by simp [attemptBody, hd, h]⟩
    · exact absurd h hd

/-- Against a store failing every attempt, the retry loop runs all its
attempts, changes nothing, completes in fallback mode and throws
nothing. -/
theorem initLoop_fails (env : Nat → AttemptEnv) (h : ∀ n, AttemptFails (env n)) :
    ∀ (left a : Nat) (db : DBState) (acc : List Event),
      initLoop env a left db acc =
        { db := db, events := acc ++ failureTrace a left
          completed := false, uncaught := none }
  | 0, a, db, acc => by
    obtain ⟨err, he⟩ := attemptBody_fails (env a) db (h a)
    simp [initLoop, he, failureTrace]
  | Nat.succ l, a, db, acc => by
    obtain ⟨err, he⟩ := attemptBody_fails (env a) db (h a)
    have ih := initLoop_fails env h l (a + 1) db
      (acc ++ Event.attemptStart a :: [Event.createTableQuery] ++ [Event.backoff 2000])
    rw [initLoop, he]
    dsimp only
    rw [ih]
    simp [failureTrace]

/-- No execution of the retry loop lets an error escape: the catch block
covers every rejection of the body. -/
theorem initLoop_uncaught (env : Nat → AttemptEnv) :
    ∀ (left a : Nat) (db : DBState) (acc : List Event),
      (initLoop env a left db acc).uncaught = none
  | 0, a, db, acc => by
    rcases hr : attemptBody (env a) db with ⟨db1, evs, err⟩
    cases err <;> simp [initLoop, hr]
  | Nat.succ l, a, db, acc => by
    rcases hr : attemptBody (env a) db with ⟨db1, evs, err⟩
    cases err with
    | none => simp [initLoop, hr]
    | some e =>
      rw [initLoop, hr]
      dsimp only
      exact initLoop_uncaught env l (a + 1) db1
        (acc ++ Event.attemptStart a :: evs ++ [Event.backoff 2000])

/-- The all-fail trace contains one attempt start per attempt. -/
theorem failureTrace_countP_start :
    ∀ (a l : Nat), (failureTrace a l).countP isAttemptStart = l + 1
  | a, 0 => by simp [failureTrace, List.countP_cons, isAttemptStart]
  | a, Nat.succ l => by
    simp [failureTrace, List.countP_cons, isAttemptStart,
      failureTrace_countP_start (a + 1) l]

/-- The all-fail trace contains one backoff fewer than attempts. -/
theorem failureTrace_countP_backoff :
    ∀ (a l : Nat), (failureTrace a l).countP isBackoffEvent = l
  | a, 0 => by simp [failureTrace, List.countP_cons, isBackoffEvent]
  | a, Nat.succ l => by
    simp [failureTrace, List.countP_cons, isBackoffEvent,
      failureTrace_countP_backoff (a + 1) l]

/-- With at least one attempt allowed and the store reachable on the
first attempt, initialization succeeds at once: schema ensured, catalog
seeded exactly when the table was empty, success return reached. -/
theorem initializeDatabase_first_ok (cfg : PoolConfig) (env : Nat → AttemptEnv)
    (r : Nat) (db : DBState) (h : Reachable (env 1)) :
    initializeDatabase (some cfg) env (r + 1) db =
      { db := { tableExists := true
                rows := if db.rows.length = 0 then sampleProducts else db.rows }
        events := Event.attemptStart 1 :: Event.createTableQuery :: Event.countQuery ::
          (if db.rows.length = 0 then sampleProducts.map Event.insertQuery else [])
        completed := true, uncaught := none } := by
  have hb := attemptBody_reachable (env 1) db h
  simp only [initializeDatabase]
  rw [initLoop, hb]
  dsimp only
  simp

/-- The seed inserts are exactly the insert events of the trace. -/
theorem countP_map_insert :
    ∀ l : List Product, (l.map Event.insertQuery).countP isInsertEvent = l.length
  | [] => rfl
  | p :: rest => by simp [List.countP_cons, isInsertEvent, countP_map_insert rest]

/-- No single operation changes the pool variable. -/
theorem runOp_pool (st : GlobalState) (op : ServerOp) : ((runOp st op).1).pool = st.pool := by
  cases op <;> rfl

/-- No sequence of post-startup operations changes the pool variable. -/
theorem runOps_pool : ∀ (ops : List ServerOp) (st : GlobalState),
    (runOps st ops).pool = st.pool
  | [], _ => rfl
  | op :: rest, st => by
    rw [runOps]
    exact (runOps_pool rest (runOp st op).1).trans (runOp_pool st op)

/-- Claim C1, counterexample: with none of DATABASE_URL, POSTGRES_URL
and POSTGRES_PRISMA_URL set, the Pool constructor (which does not throw)
still yields a pool object, so the readiness flag is true, and the
initializer still makes its 3 default attempts against the unreachable
default target, issuing 3 schema-creation statements — against the
claimed immediate false flag with zero attempts and no query. -/
theorem claimC1_counterexample :
    readinessFlag (mkPool (dbUrl none none none) false) = true ∧
    ((initializeDatabase (mkPool (dbUrl none none none) false) envDown
        defaultRetries db0).events.countP isAttemptStart = 3 ∧
      (initializeDatabase (mkPool (dbUrl none none none) false) envDown
        defaultRetries db0).events.countP isCreateEvent = 3) := by
  refine ⟨rfl, ?_, ?_⟩ <;> rfl

/-- Claim C1 (amended): the initializer makes zero attempts and issues
no queries exactly when the pool variable is unset, which happens only
when the Pool constructor throws; the readiness flag is then false.
Absence of a connection string does not by itself unset the pool: the
constructor succeeds on an absent url, the flag stays true, and the
initializer proceeds with its attempts. -/
theorem claimC1 (env : Nat → AttemptEnv) (retries : Nat) (db : DBState)
    (url : Option String) :
    initializeDatabase none env retries db =
      { db := db, events := [], completed := false, uncaught := none } ∧
    readinessFlag none = false ∧
    mkPool url false = some (poolConfig url) ∧
    readinessFlag (mkPool url false) = true :=
  ⟨rfl, rfl, rfl, rfl⟩

/-- Claim C2, counterexample: in an attempt where the count query takes
20000 ms, beyond the 15000 ms per-attempt timeout, the attempt still
ends without an error, because only the schema-creation statement is
inside the race against the timeout promise; the count query is awaited
with no race. -/
theorem claimC2_counterexample : ¬ countRacedProp :=
  fun hC => hC (envSlowCount 1) db0 (by norm_num [envSlowCount]) rfl

/-- Claim C2 (amended): in every attempt the schema-creation statement —
but not the row-count query — is raced against the 15000 ms per-attempt
timeout: a creation taking 15000 ms or more fails the attempt with the
timeout error before any count query, while a count query taking 15000
ms or more leaves the attempt successful.  An attempt fails when the
creation statement or the count query errors, and otherwise succeeds:
default records are seeded exactly when the count is zero, after which
the initializer reaches its success return. -/
theorem claimC2 (cfg : PoolConfig) (env : Nat → AttemptEnv) (db : DBState)
    (d : Nat) (e : AttemptEnv) (h : Reachable (env 1)) :
    attemptBody { create := { fails := e.create.fails, duration := 15000 + d }
                  count := e.count, insertFails := e.insertFails } db
      = (db, [Event.createTableQuery], some DBErr.queryTimeout) ∧
    (attemptBody { create := fastOk
                   count := { fails := false, duration := 15000 + d }
                   insertFails := fun _ => false } db).2.2 = none ∧
    attemptBody { create := { fails := true, duration := 0 }
                  count := e.count, insertFails := e.insertFails } db
      = (db, [Event.createTableQuery], some DBErr.storeError) ∧
    attemptBody { create := fastOk
                  count := { fails := true, duration := e.count.duration }
                  insertFails := e.insertFails } db
      = ({ db with tableExists := true },
          [Event.createTableQuery, Event.countQuery], some DBErr.storeError) ∧
    initializeDatabase (some cfg) env defaultRetries db =
      { db := { tableExists := true
                rows := if db.rows.length = 0 then sampleProducts else db.rows }
        events := Event.attemptStart 1 :: Event.createTableQuery :: Event.countQuery ::
          (if db.rows.length = 0 then sampleProducts.map Event.insertQuery else [])
        completed := true, uncaught := none } := by
  refine ⟨?_, ?_, ?_, ?_, ?_⟩
  · simp [attemptBody, Nat.le_add_right]
  · by_cases hlen : db.rows.length = 0
    · have hins := insertLoop_ok (fun _ => false) sampleProducts 0
        { db with tableExists := true } [Event.createTableQuery, Event.countQuery]
        (fun j _ => rfl)
      simp [attemptBody, fastOk, hlen, hins]
    · simp [attemptBody, fastOk, hlen]
  · simp [attemptBody]
  · simp [attemptBody, fastOk]
  · rw [show defaultRetries = 2 + 1 from rfl]
    exact initializeDatabase_first_ok cfg env 2 db h

/-- Claim C2 witness: the amended claim instantiated at a concrete
reachable oracle and the empty table. -/
theorem claimC2_witness :
    Reachable (envOk 1) ∧
    (attemptBody { create := { fails := (envOk 1).create.fails, duration := 15000 + 0 }
                   count := (envOk 1).count, insertFails := (envOk 1).insertFails } db0
      = (db0, [Event.createTableQuery], some DBErr.queryTimeout) ∧
    (attemptBody { create := fastOk
                   count := { fails := false, duration := 15000 + 0 }
                   insertFails := fun _ => false } db0).2.2 = none ∧
    attemptBody { create := { fails := true, duration := 0 }
                  count := (envOk 1).count, insertFails := (envOk 1).insertFails } db0
      = (db0, [Event.createTableQuery], some DBErr.storeError) ∧
    attemptBody { create := fastOk
                  count := { fails := true, duration := (envOk 1).count.duration }
                  insertFails := (envOk 1).insertFails } db0
      = ({ db0 with tableExists := true },
          [Event.createTableQuery, Event.countQuery], some DBErr.storeError) ∧
    initializeDatabase (some pool0) envOk defaultRetries db0 =
      { db := { tableExists := true
                rows := if db0.rows.length = 0 then sampleProducts else db0.rows }
        events := Event.attemptStart 1 :: Event.createTableQuery :: Event.countQuery ::
          (if db0.rows.length = 0 then sampleProducts.map Event.insertQuery else [])
        completed := true, uncaught := none }) :=
  ⟨⟨rfl, by norm_num [envOk, fastOk], rfl, fun i _ => rfl⟩,
    claimC2 pool0 envOk db0 0 (envOk 1)
      ⟨rfl, by norm_num [envOk, fastOk], rfl, fun i _ => rfl⟩⟩

/-- Claim C3: with the store reachable on the first attempt, seeding
inserts run exactly when the pre-attempt row count is zero, a non-empty
store keeps its rows, and a second initialization run against the
resulting store changes nothing: the sample catalog is never
duplicated. -/
theorem claimC3 (cfg : PoolConfig) (env env2 : Nat → AttemptEnv) (db : DBState)
    (h : Reachable (env 1)) (h2 : Reachable (env2 1)) :
    (initializeDatabase (some cfg) env defaultRetries db).events.countP isInsertEvent
      = (if db.rows.length = 0 then sampleProducts.length else 0) ∧
    (initializeDatabase (some cfg) env defaultRetries db).db.rows
      = (if db.rows.length = 0 then sampleProducts else db.rows) ∧
    (initializeDatabase (some cfg) env2 defaultRetries
        (initializeDatabase (some cfg) env defaultRetries db).db).db.rows
      = (initializeDatabase (some cfg) env defaultRetries db).db.rows := by
  rw [show defaultRetries = 2 + 1 from rfl]
  rw [initializeDatabase_first_ok cfg env 2 db h]
  by_cases hlen : db.rows.length = 0
  · rw [initializeDatabase_first_ok cfg env2 2 _ h2]
    simp [hlen, List.countP_cons, isAttemptStart, isInsertEvent, countP_map_insert,
      sampleProducts]
  · rw [initializeDatabase_first_ok cfg env2 2 _ h2]
    simp [hlen, List.countP_cons, isInsertEvent]

/-- Claim C3 witness: the idempotence statement instantiated at a
concrete reachable oracle and the empty table. -/
theorem claimC3_witness :
    Reachable (envOk 1) ∧
    ((initializeDatabase (some pool0) envOk defaultRetries db0).events.countP isInsertEvent
      = (if db0.rows.length = 0 then sampleProducts.length else 0) ∧
    (initializeDatabase (some pool0) envOk defaultRetries db0).db.rows
      = (if db0.rows.length = 0 then sampleProducts else db0.rows) ∧
    (initializeDatabase (some pool0) envOk defaultRetries
        (initializeDatabase (some pool0) envOk defaultRetries db0).db).db.rows
      = (initializeDatabase (some pool0) envOk defaultRetries db0).db.rows) :=
  ⟨⟨rfl, by norm_num [envOk, fastOk], rfl, fun i _ => rfl⟩,
    claimC3 pool0 envOk envOk db0
      ⟨rfl, by norm_num [envOk, fastOk], rfl, fun i _ => rfl⟩
      ⟨rfl, by norm_num [envOk, fastOk], rfl, fun i _ => rfl⟩⟩

/-- Claim C4: against a store failing every attempt, the initializer
with retries one or more performs exactly that many attempts, leaves
the store untouched, produces the trace in which consecutive attempts
are separated by single fixed 2000 ms backoffs, returns in fallback
mode, and lets no error escape. -/
theorem claimC4 (cfg : PoolConfig) (env : Nat → AttemptEnv) (r : Nat) (db : DBState)
    (h : ∀ n, AttemptFails (env n)) :
    initializeDatabase (some cfg) env (r + 1) db =
      { db := db, events := failureTrace 1 r, completed := false, uncaught := none } ∧
    (failureTrace 1 r).countP isAttemptStart = r + 1 ∧
    (failureTrace 1 r).countP isBackoffEvent = r := by
  refine ⟨?_, failureTrace_countP_start 1 r, failureTrace_countP_backoff 1 r⟩
  simp only [initializeDatabase]
  rw [initLoop_fails env h r 1 db []]
  simp

/-- Claim C4 witness: with the default 3 retries against the concrete
always-erroring store, exactly 3 attempts and 2 backoffs occur and the
initializer returns in fallback mode. -/
theorem claimC4_witness :
    (∀ n, AttemptFails (envDown n)) ∧
    (initializeDatabase (some pool0) envDown (2 + 1) db0 =
      { db := db0, events := failureTrace 1 2, completed := false, uncaught := none } ∧
    (failureTrace 1 2).countP isAttemptStart = 2 + 1 ∧
    (failureTrace 1 2).countP isBackoffEvent = 2) :=
  ⟨fun _ => Or.inl rfl, claimC4 pool0 envDown 2 db0 (fun _ => Or.inl rfl)⟩

/-- Claim C5: for every pool, store oracle, retry budget and table
state, no error escapes initializeDatabase — every rejection inside an
attempt is caught and answered by retry or by degrading — and
startServer goes on to listen without exiting the process, whatever the
store does. -/
theorem claimC5 (pool : Option PoolConfig) (env : Nat → AttemptEnv) (retries : Nat)
    (db : DBState) (url : Option String) (ct : Bool) :
    (initializeDatabase pool env retries db).uncaught = none ∧
    (startServer url ct env db).listening = true ∧
    (startServer url ct env db).exitCode = none := by
  refine ⟨?_, rfl, rfl⟩
  cases pool with
  | none => rfl
  | some cfg =>
    cases retries with
    | zero => rfl
    | succ r => exact initLoop_uncaught env r 1 db []

/-- Claim C6: with the store reachable on the first attempt and the
products table empty, initialization inserts the catalog of exactly 5
sample records as individual inserts in source order, ends with row
count 5, and the readiness flag is true. -/
theorem claimC6 (cfg : PoolConfig) (env : Nat → AttemptEnv) (db : DBState)
    (h : Reachable (env 1)) (hempty : db.rows = []) :
    initializeDatabase (some cfg) env defaultRetries db =
      { db := { tableExists := true, rows := sampleProducts }
        events := Event.attemptStart 1 :: Event.createTableQuery :: Event.countQuery ::
          sampleProducts.map Event.insertQuery
        completed := true, uncaught := none } ∧
    sampleProducts.length = 5 ∧
    (sampleProducts.map Event.insertQuery).countP isInsertEvent = 5 ∧
    readinessFlag (some cfg) = true := by
  refine ⟨?_, rfl, countP_map_insert sampleProducts, rfl⟩
  rw [show defaultRetries = 2 + 1 from rfl]
  rw [initializeDatabase_first_ok cfg env 2 db h]
  simp [hempty]

/-- Claim C6 witness: the empty-table seeding statement at a concrete
reachable oracle. -/
theorem claimC6_witness :
    Reachable (envOk 1) ∧ db0.rows = [] ∧
    (initializeDatabase (some pool0) envOk defaultRetries db0 =
      { db := { tableExists := true, rows := sampleProducts }
        events := Event.attemptStart 1 :: Event.createTableQuery :: Event.countQuery ::
          sampleProducts.map Event.insertQuery
        completed := true, uncaught := none } ∧
    sampleProducts.length = 5 ∧
    (sampleProducts.map Event.insertQuery).countP isInsertEvent = 5 ∧
    readinessFlag (some pool0) = true) :=
  ⟨⟨rfl, by norm_num [envOk, fastOk], rfl, fun i _ => rfl⟩, rfl,
    claimC6 pool0 envOk db0
      ⟨rfl, by norm_num [envOk, fastOk], rfl, fun i _ => rfl⟩ rfl⟩

/-- Claim C7: the readiness flag is false exactly when the pool variable
is unset, and each of the three data routes then answers 503 Database
not available while issuing no query at all. -/
theorem claimC7 (pool : Option PoolConfig) (category : Option String)
    (limit offset : Nat) (id : String) (q1 q2 : Except DBErr (List Product))
    (q3 : Except DBErr (List String)) :
    (readinessFlag pool = false ↔ pool = none) ∧
    getProductsHandler none category limit offset q1
      = ({ status := 503, body := RespBody.errMsg "Database not available" }, []) ∧
    getProductByIdHandler none id q2
      = ({ status := 503, body := RespBody.errMsg "Database not available" }, []) ∧
    getCategoriesHandler none q3
      = ({ status := 503, body := RespBody.errMsg "Database not available" }, []) := by
  refine ⟨?_, rfl, rfl, rfl⟩
  cases pool <;> simp [readinessFlag]

/-- Claim C8: when the pool is set and the per-request SELECT errors,
each data route answers the generic 500 failure message, and the
operation leaves the whole shared state — pool variable and table state
— unchanged for any other request. -/
theorem claimC8 (cfg : PoolConfig) (err : DBErr) (category : Option String)
    (limit offset : Nat) (id : String) (st : GlobalState) :
    getProductsHandler (some cfg) category limit offset (Except.error err)
      = ({ status := 500, body := RespBody.errMsg "Failed to fetch products" },
          [Event.selectProducts category limit offset]) ∧
    getProductByIdHandler (some cfg) id (Except.error err)
      = ({ status := 500, body := RespBody.errMsg "Failed to fetch product" },
          [Event.selectProductById id]) ∧
    getCategoriesHandler (some cfg) (Except.error err)
      = ({ status := 500, body := RespBody.errMsg "Failed to fetch categories" },
          [Event.selectCategories]) ∧
    (runOp st (ServerOp.productsReq category limit offset (Except.error err))).1 = st ∧
    (runOp st (ServerOp.productByIdReq id (Except.error err))).1 = st ∧
    (runOp st (ServerOp.categoriesReq (Except.error err))).1 = st :=
  ⟨rfl, rfl, rfl, rfl, rfl, rfl⟩

/-- Claim C9: the pool variable is computed once by startServer from the
configuration, and no sequence of post-startup operations — request
handlers, error middleware, or initializer runs — ever changes it: its
value is an invariant of every reachable post-startup state. -/
theorem claimC9 (st : GlobalState) (ops : List ServerOp) (url : Option String)
    (ct : Bool) (env : Nat → AttemptEnv) (db : DBState) :
    (runOps st ops).pool = st.pool ∧
    (startServer url ct env db).state.pool = mkPool url ct :=
  ⟨runOps_pool ops st, rfl⟩

/-- Claim C10: with the pool set, a lookup of a product id that
succeeds with zero rows is answered 404 Product not found. -/
theorem claimC10 (cfg : PoolConfig) (id : String) :
    getProductByIdHandler (some cfg) id (Except.ok [])
      = ({ status := 404, body := RespBody.errMsg "Product not found" },
          [Event.selectProductById id]) :=
  rfl

end ServerJs
